import Mathlib

/-!
Verification of the Session & Data-Synchronization Coordinator of a
browser-resident single-page client.  The definitions below are shallow
embeddings of the TypeScript sources: the Session Store (stores/authStore.ts,
a zustand store with a persist middleware), the UI Preference Store
(stores/uiStore.ts), the Request Pipeline (api/client.ts), the route
authorization guard (routes/_authenticated route, beforeLoad) and the login
page submit handler (routes/_public/login.tsx), together with the query-client
retry configuration from main.tsx.
-/

namespace ReactClient

/-! ## Session Store (stores/authStore.ts) -/

/-- The `User` interface: `{ id, name, email }`, all strings. -/
structure User where
  id : String
  name : String
  email : String
deriving DecidableEq, Repr

/-- `AuthState`: `token: string | null`, `user: User | null`,
`isAuthenticated: boolean`. -/
structure AuthState where
  token : Option String
  user : Option User
  isAuthenticated : Bool
deriving DecidableEq, Repr

/-- The initial store value: `token: null, user: null, isAuthenticated: false`. -/
def emptySession : AuthState :=
  { token := none, user := none, isAuthenticated := false }

/-- `Partial<User>`: each field optionally present. -/
structure UserPatch where
  id : Option String := none
  name : Option String := none
  email : Option String := none
deriving DecidableEq, Repr

/-- Spread merge `{ ...state.user, ...userData }`: a field present in the
patch overrides the corresponding field of the user. -/
def mergeUser (u : User) (p : UserPatch) : User :=
  { id := p.id.getD u.id
    name := p.name.getD u.name
    email := p.email.getD u.email }

/-- The three mutation actions of the auth store.  `setAuth` takes a
non-null token and user by construction, matching the TypeScript signature
`setAuth: (token: string, user: User) => void`. -/
inductive SessionOp where
  | setAuth (token : String) (user : User)
  | logout
  | updateUser (patch : UserPatch)
deriving DecidableEq, Repr

/-- One store mutation, embedded from the `set` calls in authStore.ts.
`setAuth` installs `{ token, user, isAuthenticated: true }`; `logout`
installs `{ token: null, user: null, isAuthenticated: false }`; `updateUser`
sets only the `user` field (zustand `set` shallow-merges the partial update,
so `token` and `isAuthenticated` are untouched), replacing it by the merged
user when one exists and by `null` otherwise. -/
def applySessionOp (s : AuthState) : SessionOp → AuthState
  | .setAuth token user =>
      { token := some token, user := some user, isAuthenticated := true }
  | .logout =>
      { token := none, user := none, isAuthenticated := false }
  | .updateUser p =>
      { s with user := match s.user with
                        | some u => some (mergeUser u p)
                        | none => none }

/-- The persisted record produced by the `partialize` option:
`(state) => ({ user: state.user })`. -/
structure PersistedAuth where
  user : Option User
deriving DecidableEq, Repr

/-- The `partialize` function of the persist middleware: only `user` is
written through to storage. -/
def partializeAuth (s : AuthState) : PersistedAuth :=
  { user := s.user }

/-- Hydration at process start: the persist middleware shallow-merges the
persisted record into the initial state, so only the `user` field is
restored; `token` and `isAuthenticated` keep their initial values. -/
def hydrateAuth (p : Option PersistedAuth) (s : AuthState) : AuthState :=
  match p with
  | none => s
  | some pa => { s with user := pa.user }

/-- A full process run: hydrate the persisted user into the empty session,
then apply a sequence of store operations. -/
def runSession (persisted : Option PersistedAuth) (ops : List SessionOp) : AuthState :=
  ops.foldl applySessionOp (hydrateAuth persisted emptySession)

/-- The session invariant: `isAuthenticated === (token !== null && user !== null)`. -/
def sessionInv (s : AuthState) : Bool :=
  s.isAuthenticated == (s.token.isSome && s.user.isSome)

/-! ## Serialization of the persisted session record -/

/-- Model of JSON string quoting used by `JSON.stringify` for the fields of
the persisted user. -/
def quoteStr (s : String) : String :=
  "\"" ++ s ++ "\""

/-- Model of `JSON.stringify` on a nullable user value. -/
def serializeUserOpt : Option User → String
  | none => "null"
  | some u =>
      "\x7b\"id\":" ++ quoteStr u.id ++ ",\"name\":" ++ quoteStr u.name ++
        ",\"email\":" ++ quoteStr u.email ++ "\x7d"

/-- The bytes written to durable storage for the session: the serialization
of the partialized record, which carries the `user` field only. -/
def serializePersistedAuth (p : PersistedAuth) : String :=
  "\x7b\"user\":" ++ serializeUserOpt p.user ++ "\x7d"

/-- The storage write performed after a session store commit. -/
def persistSessionBytes (s : AuthState) : String :=
  serializePersistedAuth (partializeAuth s)

/-! ## Request Pipeline (api/client.ts) -/

/-- Minimal JSON value model, enough for request/response bodies such as
`\x7b"message":"not found"\x7d`. -/
inductive Json where
  | null
  | bool (b : Bool)
  | num (n : Int)
  | str (s : String)
  | arr (xs : List Json)
  | obj (fields : List (String × Json))

/-- `ApiError`: the typed error thrown by the pipeline, carrying
`status` (the HTTP status code), `message` (the argument passed to the
`Error` constructor) and `data` (the parsed error body, `null` on parse
failure, modelled as `none`). -/
structure ApiError where
  status : Nat
  message : String
  data : Option Json

/-- A received HTTP response as the pipeline observes it: status code,
status text, and the result of `response.json()` (`none` models a body that
fails to parse). -/
structure HttpResponse where
  status : Nat
  statusText : String
  jsonBody : Option Json

/-- `response.ok`: status in the inclusive range 200-299. -/
def responseOk (r : HttpResponse) : Bool :=
  200 ≤ r.status && r.status < 300

/-- The response half of `request`: on `!response.ok` the parsed body
(substituting `null` for a parse failure, via `.catch(() => null)`) is
packed with the status code and status text into an `ApiError`; on success
the parsed JSON body is returned. -/
def handleResponse (r : HttpResponse) : Except ApiError (Option Json) :=
  if responseOk r then
    .ok r.jsonBody
  else
    .error { status := r.status, message := r.statusText, data := r.jsonBody }

/-- ASCII lowercasing of a header name, modelling the case normalization
performed by the `Headers` class. -/
def lowerAscii (s : String) : String :=
  String.mk (s.data.map (fun c => if c.isUpper then Char.ofNat (c.toNat + 32) else c))

/-- `Headers.set` over a lowercase-keyed association list: header names are
case-insensitive, and a set replaces an existing entry for the same
(lowercased) name or appends a new one. -/
def hset (hs : List (String × String)) (k v : String) : List (String × String) :=
  match hs with
  | [] => [(lowerAscii k, v)]
  | (k0, v0) :: rest =>
      if k0 = lowerAscii k then (k0, v) :: rest else (k0, v0) :: hset rest k v

/-- Lookup of a header by case-insensitive name. -/
def hget (hs : List (String × String)) (k : String) : Option String :=
  (hs.find? (fun kv => kv.1 = lowerAscii k)).map (fun kv => kv.2)

/-- Header construction of `request`: start from
`\x7b 'Content-Type': 'application/json', ...(token ? \x7b Authorization: Bearer token \x7d : \x7b\x7d) \x7d`,
then overlay every caller-supplied header with `headers.set`. -/
def buildHeaders (token : Option String) (extra : List (String × String)) :
    List (String × String) :=
  extra.foldl (fun hs kv => hset hs kv.1 kv.2)
    ([("content-type", "application/json")] ++
      (match token with
        | some t => [("authorization", "Bearer " ++ t)]
        | none => []))

/-- One observable outbound request: the endpoint and the headers it was
sent with. -/
structure RequestRecord where
  endpoint : String
  headers : List (String × String)
deriving DecidableEq, Repr

/-- An event of a client run: either a Session Store mutation or an API
call through the pipeline (with caller-supplied extra headers). -/
inductive ClientEvent where
  | storeOp (op : SessionOp)
  | apiCall (endpoint : String) (extra : List (String × String))
deriving DecidableEq, Repr

/-- Trace semantics of the client: store mutations update the session
state; each API call reads `useAuthStore.getState().token` at call time and
records the headers built from that token.  Requests are appended in order. -/
def runClient (s : AuthState) (events : List ClientEvent) :
    AuthState × List RequestRecord :=
  events.foldl
    (fun acc ev =>
      match ev with
      | .storeOp op => (applySessionOp acc.1 op, acc.2)
      | .apiCall ep extra =>
          (acc.1, acc.2 ++ [{ endpoint := ep, headers := buildHeaders acc.1.token extra }]))
    (s, [])

/-! ## Preference Store (stores/uiStore.ts, reproduced in
docs/learning-guide/05-state-management.md) -/

/-- The theme union type: 'light' | 'dark' | 'system'. -/
inductive Theme where
  | light
  | dark
  | system
deriving DecidableEq, Repr

/-- `UIState`: `sidebarOpen: boolean`, `theme`, `locale: string`. -/
structure UIState where
  sidebarOpen : Bool
  theme : Theme
  locale : String
deriving DecidableEq, Repr

/-- The defaults on first run: `sidebarOpen: true, theme: 'system',
locale: 'en'`. -/
def defaultUIState : UIState :=
  { sidebarOpen := true, theme := .system, locale := "en" }

/-- The four setter actions of the UI store. -/
inductive UIOp where
  | toggleSidebar
  | setSidebarOpen (open0 : Bool)
  | setTheme (t : Theme)
  | setLocale (l : String)
deriving DecidableEq, Repr

/-- One UI store mutation, embedded from the `set` calls in uiStore.ts. -/
def applyUIOp (s : UIState) : UIOp → UIState
  | .toggleSidebar => { s with sidebarOpen := !s.sidebarOpen }
  | .setSidebarOpen b => { s with sidebarOpen := b }
  | .setTheme t => { s with theme := t }
  | .setLocale l => { s with locale := l }

/-- The persisted record under the `ui-storage` key: the UI store has no
partialize option, so every state field is written. -/
structure PersistedUI where
  sidebarOpen : Bool
  theme : Theme
  locale : String
deriving DecidableEq, Repr

/-- Serialization of the whole UI state into its persisted record. -/
def persistUI (s : UIState) : PersistedUI :=
  { sidebarOpen := s.sidebarOpen, theme := s.theme, locale := s.locale }

/-- Rehydration: the persist middleware merges the stored record over the
default state, restoring every persisted field. -/
def loadUI (p : PersistedUI) : UIState :=
  { defaultUIState with
      sidebarOpen := p.sidebarOpen, theme := p.theme, locale := p.locale }

/-- A UI store paired with the durable-storage record the persist
middleware maintains for it. -/
structure UIStoreWithStorage where
  state : UIState
  storage : PersistedUI
deriving DecidableEq, Repr

/-- One mutation through the persist middleware: the state is updated and
the full new state is written through to storage. -/
def applyUIOpPersist (st : UIStoreWithStorage) (op : UIOp) : UIStoreWithStorage :=
  let s := applyUIOp st.state op
  { state := s, storage := persistUI s }

/-- A run of the UI store from any starting state (with its storage in
sync) through a sequence of setter calls. -/
def runUI (s : UIState) (ops : List UIOp) : UIStoreWithStorage :=
  ops.foldl applyUIOpPersist { state := s, storage := persistUI s }

/-! ## Route Authorization Guard (routes/_authenticated route) -/

/-- The redirect thrown by the guard: a target path and the value of the
`redirect` search parameter. -/
structure GuardRedirect where
  redirectTo : String
  searchRedirect : String
deriving DecidableEq, Repr

/-- The `beforeLoad` of the `/_authenticated` layout route: when
`context.auth.isAuthenticated` is false it throws a redirect to `/login`
carrying `location.href` in the `redirect` search parameter; otherwise it
lets navigation proceed. -/
def beforeLoadAuthenticated (isAuthenticated : Bool) (locationHref : String) :
    Option GuardRedirect :=
  if !isAuthenticated then
    some { redirectTo := "/login", searchRedirect := locationHref }
  else
    none

/-- Outcome of a navigation attempt into the protected subtree. -/
inductive NavOutcome where
  | redirected (redirectTo : String) (searchRedirect : String)
  | rendered
deriving DecidableEq, Repr

/-- Modelled from the spec: the router evaluates `beforeLoad` of the
protected layout once per navigation attempt, before any child route's
data loader runs, and a thrown redirect aborts the navigation so the
subtree's loaders never execute.  The Boolean records whether the subtree
loader was invoked. -/
def navigateProtected (isAuthenticated : Bool) (locationHref : String) :
    NavOutcome × Bool :=
  match beforeLoadAuthenticated isAuthenticated locationHref with
  | some r => (NavOutcome.redirected r.redirectTo r.searchRedirect, false)
  | none => (NavOutcome.rendered, true)

/-! ## Login page submit handler (routes/_public/login.tsx) -/

/-- The navigation target used by the login page after a successful
`login.mutateAsync`: the source navigates to the fixed path
`/dashboard`, ignoring any `redirect` search parameter the guard put on
the login route. -/
def loginSuccessNavTarget (searchRedirect : Option String) : String :=
  "/dashboard"

/-! ## Query client retry configuration (main.tsx) -/

/-- `retry: 1` from the query-client defaults in main.tsx. -/
def queryRetryLimit : Nat := 1

/-- `staleTime: 1000 * 60 * 5` from the query-client defaults in main.tsx. -/
def queryStaleTimeMs : Nat := 1000 * 60 * 5

/-- Is a typed error in the 4xx client-error class. -/
def is4xx (e : ApiError) : Bool :=
  400 ≤ e.status && e.status < 500

/-- The retry decision for a failed read.  The repo configures the numeric
option `retry: 1` (main.tsx) and its learning guide documents it as
"failed queries retry once before showing an error": a numeric retry
count retries any failure while the prior failure count is below the
limit, with no dependence on the error. -/
def shouldRetryRead (failureCount : Nat) (e : ApiError) : Bool :=
  decide (failureCount < queryRetryLimit)

/-! ## Remote Data Cache de-duplication -/

/-- A cache entry is either an in-flight fetch with the list of attached
callers, or a completed value. -/
inductive FetchEntry (α : Type) where
  | inflight (waiters : List Nat)
  | done (value : α)
deriving DecidableEq, Repr

/-- Modelled from the spec: the keyed cache, holding entries plus a log of
the keys for which the fetcher function was invoked. -/
structure DedupCache (α : Type) where
  entries : List (String × FetchEntry α)
  fetchStarts : List String
deriving DecidableEq, Repr

/-- The cache with no entries and no fetches started. -/
def DedupCache.empty (α : Type) : DedupCache α := { entries := [], fetchStarts := [] }

/-- Entry lookup by key. -/
def lookupEntry (c : DedupCache α) (k : String) : Option (FetchEntry α) :=
  (c.entries.find? (fun kv => kv.1 = k)).map (fun kv => kv.2)

/-- Replace-or-append on the entry list. -/
def setEntry (entries : List (String × FetchEntry α)) (k : String) (e : FetchEntry α) :
    List (String × FetchEntry α) :=
  match entries with
  | [] => [(k, e)]
  | (k0, e0) :: rest =>
      if k0 = k then (k0, e) :: rest else (k0, e0) :: setEntry rest k e

/-- What an `ensure` call observes. -/
inductive EnsureOutcome (α : Type) where
  | started
  | attachedToInflight
  | immediate (v : α)
deriving DecidableEq, Repr

/-- Modelled from the spec: `ensure(key, fetcher)` — a key already
fetching attaches the caller to the existing in-flight operation without
invoking the fetcher again; a completed entry is returned immediately;
otherwise the fetcher is invoked (logged in `fetchStarts`) and an
in-flight entry recording the caller is installed. -/
def ensure (c : DedupCache α) (k : String) (caller : Nat) :
    DedupCache α × EnsureOutcome α :=
  match lookupEntry c k with
  | some (.inflight ws) =>
      ({ c with entries := setEntry c.entries k (.inflight (ws ++ [caller])) },
        .attachedToInflight)
  | some (.done v) => (c, .immediate v)
  | none =>
      ({ entries := setEntry c.entries k (.inflight [caller]),
         fetchStarts := c.fetchStarts ++ [k] },
        .started)

/-- Modelled from the spec: completion of the single in-flight fetch for a
key delivers its result to every attached caller and stores the value. -/
def resolveFetch (c : DedupCache α) (k : String) (v : α) :
    DedupCache α × List (Nat × α) :=
  match lookupEntry c k with
  | some (.inflight ws) =>
      ({ c with entries := setEntry c.entries k (.done v) }, ws.map (fun w => (w, v)))
  | _ => (c, [])

/-- How many times the fetcher was invoked for a key. -/
def countStarts (c : DedupCache α) (k : String) : Nat :=
  c.fetchStarts.count k

end ReactClient

namespace ReactClient

/-- Auxiliary: a single store operation preserves the session invariant. -/
theorem sessionInv_applySessionOp (s : AuthState) (op : SessionOp)
    (h : sessionInv s = true) : sessionInv (applySessionOp s op) = true := by
  cases op with
  | setAuth t u => simp [applySessionOp, sessionInv]
  | logout => simp [applySessionOp, sessionInv]
  | updateUser p =>
      cases s with
      | mk t u a =>
          cases u with
          | none => simpa [applySessionOp, sessionInv] using h
          | some u0 => simpa [applySessionOp, sessionInv] using h

/-- Auxiliary: the invariant is preserved by any list of operations. -/
theorem sessionInv_foldl (ops : List SessionOp) (s : AuthState)
    (h : sessionInv s = true) : sessionInv (ops.foldl applySessionOp s) = true := by
  induction ops generalizing s with
  | nil => simpa using h
  | cons op rest ih =>
      exact ih (applySessionOp s op) (sessionInv_applySessionOp s op h)

/-- C1: for every sequence of Session Store operations (setAuth with a
non-null token and user, logout, updateUser, and hydration of the persisted
user at process start, starting from the empty session), after each
operation the state satisfies
isAuthenticated === (token !== null && user !== null).  Every state reached
after an operation is `runSession persisted ops` for the sequence of
operations performed so far, so the statement quantifies over all
reachable states. -/
theorem session_invariant_holds (persisted : Option PersistedAuth)
    (ops : List SessionOp) : sessionInv (runSession persisted ops) = true := by
  apply sessionInv_foldl
  cases persisted with
  | none => simp [hydrateAuth, emptySession, sessionInv]
  | some pa => simp [hydrateAuth, emptySession, sessionInv]

/-- C8: calling updateUser(partial) in any Session Store state where
user === null leaves the entire state (token, user, isAuthenticated)
unchanged, as a silent no-op. -/
theorem updateUser_noop_when_no_user (s : AuthState) (p : UserPatch)
    (h : s.user = none) : applySessionOp s (.updateUser p) = s := by
  cases s with
  | mk t u a =>
      simp only [AuthState.mk.injEq] at h ⊢
      simp [applySessionOp, h]

/-- Concrete instance of updateUser_noop_when_no_user: a logged-out state
with a pending name patch is left untouched. -/
theorem updateUser_noop_when_no_user_witness :
    (emptySession.user = none) ∧
      applySessionOp emptySession (.updateUser { name := some "Bob" }) = emptySession :=
  ⟨rfl, updateUser_noop_when_no_user emptySession { name := some "Bob" } rfl⟩

/-- C7: the token is never written to durable storage.  The persisted
record, and hence the exact bytes written, are a function of the user field
only: any two states agreeing on `user` (in particular two states differing
only in their token values) persist byte-identical records, so no value of
`token` ever flows into storage. -/
theorem token_never_persisted (s₁ s₂ : AuthState) (h : s₁.user = s₂.user) :
    partializeAuth s₁ = partializeAuth s₂ ∧
      persistSessionBytes s₁ = persistSessionBytes s₂ := by
  constructor
  · simp [partializeAuth, h]
  · simp [persistSessionBytes, partializeAuth, h]

/-- Concrete instance of token_never_persisted: two authenticated states
holding different bearer tokens write the same bytes. -/
theorem token_never_persisted_witness :
    (AuthState.mk (some "tok-A") (some ⟨"1", "Ann", "a@x.com"⟩) true).user =
        (AuthState.mk (some "tok-B") (some ⟨"1", "Ann", "a@x.com"⟩) true).user ∧
      persistSessionBytes (AuthState.mk (some "tok-A") (some ⟨"1", "Ann", "a@x.com"⟩) true) =
        persistSessionBytes (AuthState.mk (some "tok-B") (some ⟨"1", "Ann", "a@x.com"⟩) true) :=
  ⟨rfl,
    (token_never_persisted
      (AuthState.mk (some "tok-A") (some ⟨"1", "Ann", "a@x.com"⟩) true)
      (AuthState.mk (some "tok-B") (some ⟨"1", "Ann", "a@x.com"⟩) true) rfl).2⟩

/-- Auxiliary: header lookup over a cons cell. -/
theorem hget_cons (a b : String) (hs : List (String × String)) (q : String) :
    hget ((a, b) :: hs) q = if a = lowerAscii q then some b else hget hs q := by
  by_cases h : a = lowerAscii q <;> simp [hget, List.find?, h]

/-- Auxiliary: setting a header under one name leaves lookups under a
different (lowercased) name unchanged. -/
theorem hget_hset_ne (hs : List (String × String)) (k v q : String)
    (h : lowerAscii k ≠ lowerAscii q) : hget (hset hs k v) q = hget hs q := by
  induction hs with
  | nil => simp [hset, hget_cons, hget, h]
  | cons kv rest ih =>
      obtain ⟨k0, v0⟩ := kv
      by_cases h0 : k0 = lowerAscii k
      · subst h0
        simp [hset, hget_cons, h]
      · rw [show hset ((k0, v0) :: rest) k v = (k0, v0) :: hset rest k v from by
          simp [hset, h0]]
        rw [hget_cons, hget_cons]
        by_cases hq : k0 = lowerAscii q
        · simp [hq]
        · simp [hq, ih]

/-- Auxiliary: overlaying caller headers none of which is named (case
insensitively) like the query leaves that lookup unchanged. -/
theorem hget_foldl_hset (q : String) (extra : List (String × String))
    (hq : ∀ kv ∈ extra, lowerAscii kv.1 ≠ lowerAscii q) (hs : List (String × String)) :
    hget (extra.foldl (fun acc kv => hset acc kv.1 kv.2) hs) q = hget hs q := by
  induction extra generalizing hs with
  | nil => rfl
  | cons kv rest ih =>
      have hrest : ∀ kv0 ∈ rest, lowerAscii kv0.1 ≠ lowerAscii q :=
        fun kv0 hm => hq kv0 (List.mem_cons_of_mem kv hm)
      calc hget ((kv :: rest).foldl (fun acc kv0 => hset acc kv0.1 kv0.2) hs) q
          = hget (hset hs kv.1 kv.2) q := ih hrest (hset hs kv.1 kv.2)
        _ = hget hs q := hget_hset_ne hs kv.1 kv.2 q (hq kv (List.mem_cons_self kv rest))

/-- C2: the pipeline reads the token from the Session Store at call time.
First conjunct: scenario A, setAuth("tok-1", Ann) followed by a request to
/users records exactly one request whose Authorization header is
"Bearer tok-1".  Second conjunct: with a null token at call time and no
caller-supplied header named Authorization, the built headers carry no
Authorization entry.  Remaining conjuncts: a token rotated between two
calls is used by the second call, whose Authorization header is built from
t2 rather than t1. -/
theorem request_reads_token_at_call_time
    (t1 t2 : String) (u1 u2 : User) (p1 p2 : String)
    (extra : List (String × String))
    (hex : ∀ kv ∈ extra, lowerAscii kv.1 ≠ "authorization") :
    ((runClient emptySession
        [.storeOp (.setAuth "tok-1" ⟨"1", "Ann", "a@x.com"⟩), .apiCall "/users" []]).2 =
      [⟨"/users", [("content-type", "application/json"), ("authorization", "Bearer tok-1")]⟩]) ∧
    hget (buildHeaders none extra) "Authorization" = none ∧
    ((runClient emptySession
        [.storeOp (.setAuth t1 u1), .apiCall p1 [],
         .storeOp (.setAuth t2 u2), .apiCall p2 []]).2 =
      [⟨p1, [("content-type", "application/json"), ("authorization", "Bearer " ++ t1)]⟩,
       ⟨p2, [("content-type", "application/json"), ("authorization", "Bearer " ++ t2)]⟩]) ∧
    hget (buildHeaders (some t2) []) "Authorization" = some ("Bearer " ++ t2) := by
  refine ⟨rfl, ?_, rfl, rfl⟩
  have hex2 : ∀ kv ∈ extra, lowerAscii kv.1 ≠ lowerAscii "Authorization" := by
    intro kv hm
    have hlow : lowerAscii "Authorization" = "authorization" := by decide
    rw [hlow]
    exact hex kv hm
  calc hget (buildHeaders none extra) "Authorization"
      = hget [("content-type", "application/json")] "Authorization" :=
        hget_foldl_hset "Authorization" extra hex2 _
    _ = none := by decide

/-- Concrete instance of request_reads_token_at_call_time: with a null
token and a caller-supplied tracing header, no Authorization header is
attached. -/
theorem request_reads_token_at_call_time_witness :
    (∀ kv ∈ ([("X-Trace", "abc")] : List (String × String)),
        lowerAscii kv.1 ≠ "authorization") ∧
      hget (buildHeaders none [("X-Trace", "abc")]) "Authorization" = none :=
  ⟨by decide,
    (request_reads_token_at_call_time "t1" "t2" ⟨"1", "A", "a@x"⟩ ⟨"2", "B", "b@x"⟩
      "/x" "/y" [("X-Trace", "abc")] (by decide)).2.1⟩

/-- C4 counterexample: a 404 response with body message "not found" (and
the standard reason phrase "Not Found" as its status text) rejects with an
ApiError whose message field is the status text "Not Found", not the body
message "not found"; the body lands in the data field instead. -/
theorem notFound_message_is_statusText :
    handleResponse ⟨404, "Not Found", some (.obj [("message", .str "not found")])⟩ =
      .error ⟨404, "Not Found", some (.obj [("message", .str "not found")])⟩ ∧
    ("Not Found" : String) ≠ "not found" :=
  ⟨rfl, by decide⟩

/-- C4 amended: every non-2xx response rejects with a typed ApiError
carrying the response's status code, the response's status text as its
message, and the parsed JSON error body (null on parse failure) as its
data field. -/
theorem non2xx_yields_typed_error (r : HttpResponse) (h : responseOk r = false) :
    handleResponse r = .error ⟨r.status, r.statusText, r.jsonBody⟩ := by
  simp [handleResponse, h]

/-- Concrete instance of non2xx_yields_typed_error at the scenario-B
input: status 404, body message "not found" carried in the data field. -/
theorem non2xx_yields_typed_error_witness :
    responseOk ⟨404, "Not Found", some (.obj [("message", .str "not found")])⟩ = false ∧
      handleResponse ⟨404, "Not Found", some (.obj [("message", .str "not found")])⟩ =
        .error ⟨404, "Not Found", some (.obj [("message", .str "not found")])⟩ :=
  ⟨rfl, non2xx_yields_typed_error ⟨404, "Not Found", some (.obj [("message", .str "not found")])⟩ rfl⟩

/-- Auxiliary: reloading a persisted UI record restores the exact state. -/
theorem loadUI_persistUI (s : UIState) : loadUI (persistUI s) = s := by
  cases s
  rfl

/-- Auxiliary: after any run, the storage record is the serialization of
the current state. -/
theorem runUI_storage_sync (s : UIState) (ops : List UIOp) :
    (runUI s ops).storage = persistUI (runUI s ops).state := by
  suffices h : ∀ st : UIStoreWithStorage, st.storage = persistUI st.state →
      (ops.foldl applyUIOpPersist st).storage = persistUI (ops.foldl applyUIOpPersist st).state by
    exact h { state := s, storage := persistUI s } rfl
  induction ops with
  | nil => intro st hst; simpa using hst
  | cons op rest ih =>
      intro st hst
      exact ih (applyUIOpPersist st op) rfl

/-- C9: for every valid Preferences value and every sequence of setter
calls (setTheme, setLocale, setSidebarOpen, toggleSidebar), every mutation
writes all fields through to storage, and reloading the persisted record
yields exactly the same three field values as the live state. -/
theorem preferences_persist_roundtrip (s : UIState) (ops : List UIOp) :
    (runUI s ops).storage = persistUI (runUI s ops).state ∧
      loadUI ((runUI s ops).storage) = (runUI s ops).state := by
  refine ⟨runUI_storage_sync s ops, ?_⟩
  rw [runUI_storage_sync s ops, loadUI_persistUI]

/-- C3: a navigation attempt into the protected subtree while
isAuthenticated is false results in a redirect to /login whose search
parameters carry the originally requested location, and the subtree's
data loader is never invoked (the Boolean component is false). -/
theorem guard_blocks_unauthenticated (loc : String) :
    navigateProtected false loc = (NavOutcome.redirected "/login" loc, false) := rfl

/-- C10: the login page does not follow the preserved return target.  The
guard redirecting away from /users/7 preserves that location in the
redirect search parameter, but after a successful login the page
navigates to the fixed /dashboard, not to /users/7. -/
theorem login_ignores_return_target :
    beforeLoadAuthenticated false "/users/7" =
        some { redirectTo := "/login", searchRedirect := "/users/7" } ∧
      loginSuccessNavTarget (some "/users/7") = "/dashboard" ∧
      loginSuccessNavTarget (some "/users/7") ≠ "/users/7" :=
  ⟨rfl, rfl, by decide⟩

/-- C5 counterexample: a 404-class typed error that has not yet been
retried IS retried by the configured policy (retry: 1 retries every
failure once, with no 4xx exclusion). -/
theorem fourxx_read_is_retried :
    is4xx { status := 404, message := "Not Found", data := none } = true ∧
      shouldRetryRead 0 { status := 404, message := "Not Found", data := none } = true :=
  ⟨rfl, rfl⟩

/-- C5 amended: the retry decision for a failed read depends only on the
failure count, never on the status class of the error: every failure,
4xx included, is retried while the prior failure count is below the
configured limit of 1, and never afterwards. -/
theorem read_retry_ignores_status_class (n : Nat) (e e0 : ApiError) :
    shouldRetryRead n e = shouldRetryRead n e0 ∧
      (shouldRetryRead n e = true ↔ n < queryRetryLimit) :=
  ⟨rfl, by simp [shouldRetryRead]⟩

/-- C6: a second ensure call for the same key made while a fetch for that
key is in flight attaches to the existing operation: the fetcher is
invoked exactly once, and resolving that single fetch delivers its one
result to both callers. -/
theorem ensure_dedupes_inflight {α : Type} (k : String) (a b : Nat) (v : α) :
    (ensure (DedupCache.empty α) k a).2 = .started ∧
      (ensure (ensure (DedupCache.empty α) k a).1 k b).2 = .attachedToInflight ∧
      countStarts (resolveFetch (ensure (ensure (DedupCache.empty α) k a).1 k b).1 k v).1 k = 1 ∧
      (resolveFetch (ensure (ensure (DedupCache.empty α) k a).1 k b).1 k v).2 =
        [(a, v), (b, v)] := by
  refine ⟨rfl, ?_, ?_, ?_⟩ <;>
    simp [ensure, resolveFetch, lookupEntry, setEntry, countStarts,
      DedupCache.empty, List.find?, List.count]

end ReactClient
